import Mathlib

/-!
Shallow embedding of `src/pm-app/app/ui/form.tsx`: the field-context prop
resolver (`getResolvedFieldProps`) and the rendered-attribute behaviour of
the `Label`, `Textarea` and `FieldError` components.

JavaScript dynamic values are modelled by `JSValue` (strings, booleans and
`null`); an absent or `undefined` object entry is `none`.  A props object is
a function from keys to `Option JSValue`, and object spread `{...a, ...b}`
is `spreadObj`, where a key present in `b` always wins.
-/

namespace Form

/-- A JavaScript runtime value as far as this fragment needs: strings,
booleans and `null`.  `undefined`/absent is represented by `none` at the
`Option JSValue` level. -/
inductive JSValue where
  | str : String → JSValue
  | bool : Bool → JSValue
  | null : JSValue
deriving DecidableEq, Repr

/-- JS truthiness of a value: the empty string, `false` and `null` are falsy. -/
def JSValue.truthy : JSValue → Bool
  | .str s => s != ""
  | .bool b => b
  | .null => false

/-- JS truthiness of a possibly-absent value (`undefined` is falsy). -/
def truthy : Option JSValue → Bool
  | none => false
  | some v => v.truthy

/-- JS nullish coalescing `a ?? b`: `b` exactly when `a` is `undefined` or `null`. -/
def jsCoalesce (a b : Option JSValue) : Option JSValue :=
  match a with
  | none => b
  | some .null => b
  | some v => some v

/-- JS logical or `a || b`: `a` when truthy, otherwise `b`. -/
def jsOr (a b : Option JSValue) : Option JSValue :=
  if truthy a then a else b

/-- JS template-literal coercion of a value to a string. -/
def JSValue.interp : JSValue → String
  | .str s => s
  | .bool b => if b then "true" else "false"
  | .null => "null"

/-- A JS object (props bag): each key maps to a value, `none` meaning the key
is absent (or `undefined`). -/
abbrev JSObj : Type := String → Option JSValue

/-- The empty props object `{}`. -/
def emptyObj : JSObj := fun _ => none

/-- JS object spread `{...a, ...b}`: keys of `b` override keys of `a`. -/
def spreadObj (a b : JSObj) : JSObj := fun k =>
  match b k with
  | some v => some v
  | none => a k

/-- The `FieldContextValue` interface of `form.tsx`:
`{ name?, id?, invalid?, disabled?, required?, error? }`.  `invalid` has the
`aria-invalid` union type (booleans and strings) and `error` is
`string | null | undefined`, so both are kept as raw `JSValue`s. -/
structure FieldContextValue where
  name : Option String := none
  id : Option String := none
  invalid : Option JSValue := none
  disabled : Option Bool := none
  required : Option Bool := none
  error : Option JSValue := none
deriving DecidableEq, Repr

/-- Truthiness of the optional `id` string (an empty id string is falsy). -/
def idTruthy : Option String → Bool
  | none => false
  | some s => s != ""

/-- The destructuring `const { error, ...rest } = context`, as a props
object: every context field except `error` (and only `error`) survives into
`rest`. -/
def contextRest (c : FieldContextValue) : JSObj := fun k =>
  if k = "name" then c.name.map JSValue.str
  else if k = "id" then c.id.map JSValue.str
  else if k = "invalid" then c.invalid
  else if k = "disabled" then c.disabled.map JSValue.bool
  else if k = "required" then c.required.map JSValue.bool
  else none

/-- The `ariaProps` record built by `getResolvedFieldProps`: when
`context.error && context.id` holds it carries `aria-describedby` (the derived
`{id}-error` token, appended after any caller-supplied value) and
`aria-invalid` (`props["aria-invalid"] ?? context.invalid`, with the literal
string `"false"` coerced to boolean `false`, and `?? true` as default);
otherwise it is the empty object. -/
def ariaDerivation (c : FieldContextValue) (props : JSObj) : JSObj :=
  if truthy c.error && idTruthy c.id then
    let i := c.id.getD ""
    fun k =>
      if k = "aria-describedby" then
        some (.str (match props "aria-describedby" with
          | some .null => i ++ "-error"
          | some v => v.interp ++ " " ++ i ++ "-error"
          | none => i ++ "-error"))
      else if k = "aria-invalid" then
        let invalid := jsCoalesce (props "aria-invalid") c.invalid
        some (if invalid = some (.str "false") then .bool false
              else match invalid with
                | none => .bool true
                | some .null => .bool true
                | some v => v)
      else none
  else emptyObj

/-- The resolver `getResolvedFieldProps(context, props)` from `form.tsx`:
pass-through on a missing context, otherwise
`{...rest, ...props, ...ariaProps}`. -/
def getResolvedFieldProps (context : Option FieldContextValue) (props : JSObj) :
    JSObj :=
  match context with
  | none => props
  | some c => spreadObj (spreadObj (contextRest c) props) (ariaDerivation c props)

/-- The `htmlFor` attribute the rendered `<label>` actually carries.  The JSX
is `<label htmlFor={ctx?.id || props.htmlFor} ref={ref} {...domProps} ...>`
where `domProps` is `props` minus `className`/`children`; a caller-supplied
`htmlFor` is still inside `domProps`, and a later spread entry overrides the
earlier explicit attribute. -/
def labelRenderedHtmlFor (ctx : Option FieldContextValue) (props : JSObj) :
    Option JSValue :=
  let computed := jsOr (ctx.bind fun c => c.id.map JSValue.str) (props "htmlFor")
  match props "htmlFor" with
  | some v => some v
  | none => computed

/-- The `resize` value `Textarea` destructures out of the resolved props,
with the destructuring default `resize = "y"` applied when the entry is
absent or `undefined`. -/
def textareaResolvedResize (context : Option FieldContextValue) (props : JSObj) :
    JSValue :=
  match getResolvedFieldProps context props "resize" with
  | none => .str "y"
  | some v => v

/-- The props `Textarea` forwards to the underlying `<textarea>` element:
the resolved props with the `resize` entry destructured away. -/
def textareaForwardedProps (context : Option FieldContextValue) (props : JSObj) :
    JSObj :=
  fun k => if k = "resize" then none else getResolvedFieldProps context props k

/-- The conditional resize classes of `Textarea`'s `cx` call:
`resize-xy` iff `resize === true`, `resize-x` iff `resize === "x"`,
`resize-y` iff `resize === "y"`. -/
def textareaResizeClasses (resize : JSValue) : List String :=
  (if resize = .bool true then ["resize-xy"] else []) ++
  (if resize = .str "x" then ["resize-x"] else []) ++
  (if resize = .str "y" then ["resize-y"] else [])

/-- What a rendered `FieldError` contributes to the DOM: the displayed
message, the effective `role` attribute and the effective `id` attribute. -/
structure FieldErrorRender where
  message : JSValue
  role : JSValue
  id : Option JSValue
deriving DecidableEq, Repr

/-- The `FieldError` component from `form.tsx`: the message is
`children || context?.error`;
when it is falsy the component returns `null`; otherwise it renders a `<div>`
with `role="alert"` followed by `{...domProps}` (so a caller-supplied `role`
overrides the alert role, while `id` was destructured out of `domProps` and
stays `{context.id}-error` when `context && context.id`, else the explicit
`id`). -/
def renderFieldError (context : Option FieldContextValue) (props : JSObj) :
    Option FieldErrorRender :=
  let error := jsOr (props "children") (context.bind fun c => c.error)
  let idToUse : Option JSValue :=
    match context with
    | some c =>
      if idTruthy c.id then some (.str (c.id.getD "" ++ "-error")) else props "id"
    | none => props "id"
  match error with
  | none => none
  | some e =>
    if e.truthy then
      some { message := e
             role := (props "role").getD (.str "alert")
             id := idToUse }
    else none

/-- A context with `invalid` set and `error` unset, the failing input of
claim C1. -/
def invalidOnlyCtx : FieldContextValue :=
  { id := some "f1", invalid := some (.str "true") }

/-- A context carrying only an id, the failing input of claim C2. -/
def idOnlyCtx : FieldContextValue := { id := some "f1" }

/-- Props passing an explicit `htmlFor="other"`. -/
def htmlForOtherProps : JSObj := fun k =>
  if k = "htmlFor" then some (.str "other") else none

/-- A context with an id and a truthy error message (spec test input). -/
def requiredErrCtx : FieldContextValue :=
  { id := some "f1", error := some (.str "Required") }

/-- The same context with `invalid` set to the literal string `"false"`. -/
def falseInvalidCtx : FieldContextValue :=
  { id := some "f1", invalid := some (.str "false"), error := some (.str "Required") }

/-- Props passing an explicit `aria-describedby="hint"`. -/
def hintProps : JSObj := fun k =>
  if k = "aria-describedby" then some (.str "hint") else none

/-- Props passing an explicit `aria-label="L"`. -/
def ariaLabelProps : JSObj := fun k =>
  if k = "aria-label" then some (.str "L") else none

/-- A context without any error message. -/
def noErrCtx : FieldContextValue := { name := some "n", id := some "f1" }

/-- Props passing `resize: true` to `Textarea`. -/
def resizeTrueProps : JSObj := fun k =>
  if k = "resize" then some (.bool true) else none

/-- A context with a truthy error and no id. -/
def alertCtx : FieldContextValue := { error := some (.str "Oops") }

/-- Props passing an explicit `role="none"` to `FieldError`. -/
def roleNoneProps : JSObj := fun k =>
  if k = "role" then some (.str "none") else none

/-! ## Helper lemmas -/

/-- Any key other than the two derived aria keys is absent from `ariaProps`. -/
theorem ariaDerivation_apply_other (c : FieldContextValue) (props : JSObj)
    (k : String) (h1 : k ≠ "aria-describedby") (h2 : k ≠ "aria-invalid") :
    ariaDerivation c props k = none := by
  unfold ariaDerivation
  split
  · simp [h1, h2]
  · rfl

/-- When the derivation is active, `aria-describedby` is the bare derived
token if the caller supplied none. -/
theorem resolved_describedby_of_none (c : FieldContextValue) (props : JSObj)
    (i : String) (hid : c.id = some i) (hne : i ≠ "")
    (herr : truthy c.error = true) (hnone : props "aria-describedby" = none) :
    getResolvedFieldProps (some c) props "aria-describedby" =
      some (.str (i ++ "-error")) := by
  have hbne : (i != "") = true := bne_iff_ne.mpr hne
  simp [getResolvedFieldProps, spreadObj, ariaDerivation, herr, hid, idTruthy,
    hbne, hnone]

/-- When the derivation is active and the caller supplied a string
`aria-describedby`, the derived token is appended after a space. -/
theorem resolved_describedby_of_str (c : FieldContextValue) (props : JSObj)
    (i s : String) (hid : c.id = some i) (hne : i ≠ "")
    (herr : truthy c.error = true)
    (hs : props "aria-describedby" = some (.str s)) :
    getResolvedFieldProps (some c) props "aria-describedby" =
      some (.str (s ++ " " ++ i ++ "-error")) := by
  have hbne : (i != "") = true := bne_iff_ne.mpr hne
  simp [getResolvedFieldProps, spreadObj, ariaDerivation, herr, hid, idTruthy,
    hbne, hs, JSValue.interp]

/-- The resolved `resize` entry is exactly the caller's `resize` entry: the
context never contributes one and the aria derivation never touches it. -/
theorem resolved_resize_eq (context : Option FieldContextValue) (props : JSObj) :
    getResolvedFieldProps context props "resize" = props "resize" := by
  cases context with
  | none => rfl
  | some c =>
    have ha := ariaDerivation_apply_other c props "resize" (by decide) (by decide)
    cases hp : props "resize" with
    | none => simp [getResolvedFieldProps, spreadObj, ha, hp, contextRest]
    | some v => simp [getResolvedFieldProps, spreadObj, ha, hp]

/-- A `FieldError` under a context with a nonempty id and a truthy error
always renders, with DOM id `{id}-error`. -/
theorem renderFieldError_id_of_error (c : FieldContextValue) (propsF : JSObj)
    (i : String) (hid : c.id = some i) (hne : i ≠ "")
    (herr : truthy c.error = true) :
    (renderFieldError (some c) propsF).map FieldErrorRender.id =
      some (some (.str (i ++ "-error"))) := by
  have hbne : (i != "") = true := bne_iff_ne.mpr hne
  cases he : c.error with
  | none => rw [he] at herr; exact absurd herr (by simp [truthy])
  | some e =>
    have het : e.truthy = true := by rw [he] at herr; simpa [truthy] using herr
    cases hch : propsF "children" with
    | none =>
      simp [renderFieldError, jsOr, truthy, hch, he, het, idTruthy, hid, hbne]
    | some v =>
      cases hvt : v.truthy with
      | false =>
        simp [renderFieldError, jsOr, truthy, hch, hvt, he, het, idTruthy, hid,
          hbne]
      | true =>
        simp [renderFieldError, jsOr, truthy, hch, hvt, idTruthy, hid, hbne]

/-! ## Claims -/

/-- Claim C1 (code behaviour at the failing input): with `error` unset,
`getResolvedFieldProps` still forwards the context's `invalid` field as a raw
`invalid` key of the merged result — the destructuring on line 39 removes
only `error`, contradicting the claim, the spec and the function's own
declared return type `Omit<FieldContextValue, "error" | "invalid">`, under
which the result's `invalid` entry would equal the (absent) `invalid` entry
of the props. -/
theorem c1_invalid_forwarded :
    truthy invalidOnlyCtx.error = false ∧
    getResolvedFieldProps (some invalidOnlyCtx) emptyObj "invalid" =
      some (.str "true") ∧
    getResolvedFieldProps (some invalidOnlyCtx) emptyObj "invalid" ≠
      emptyObj "invalid" := by
  refine ⟨rfl, rfl, ?_⟩
  decide

/-- Claim C2 (code behaviour at the failing input): with `context.id = "f1"`
and an explicit `htmlFor="other"`, the rendered label target is `"other"`,
not `"f1"` — the `{...domProps}` spread comes after the computed `htmlFor`
attribute and clobbers it, contradicting the claim, the spec and the
context-first precedence written in `ctx?.id || props.htmlFor`. -/
theorem c2_htmlFor_explicit_wins :
    labelRenderedHtmlFor (some idOnlyCtx) htmlForOtherProps =
      some (.str "other") ∧
    labelRenderedHtmlFor (some idOnlyCtx) htmlForOtherProps ≠
      some (.str "f1") := by
  refine ⟨rfl, ?_⟩
  decide

/-- Claim C6: with no ambient context, `getResolvedFieldProps(null, props)`
returns `props` itself unchanged. -/
theorem c6_null_context_identity (props : JSObj) :
    getResolvedFieldProps none props = props := rfl

/-- Claim C3: under a context with a truthy error and a nonempty id, the
resolved `aria-describedby` is the derived token `{id}-error` when the caller
supplied none, and the caller's value followed by a space and the derived
token when the caller supplied one. -/
theorem c3_aria_describedby (c : FieldContextValue) (props : JSObj)
    (i : String) (hid : c.id = some i) (hne : i ≠ "")
    (herr : truthy c.error = true) :
    (props "aria-describedby" = none →
      getResolvedFieldProps (some c) props "aria-describedby" =
        some (.str (i ++ "-error"))) ∧
    (∀ s : String, props "aria-describedby" = some (.str s) →
      getResolvedFieldProps (some c) props "aria-describedby" =
        some (.str (s ++ " " ++ i ++ "-error"))) := by
  constructor
  · intro hnone
    exact resolved_describedby_of_none c props i hid hne herr hnone
  · intro s hs
    exact resolved_describedby_of_str c props i s hid hne herr hs

/-- Witness for C3 at the spec's test input: context id `"f1"`, error
`"Required"`, caller `aria-describedby="hint"`. -/
theorem c3_aria_describedby_witness :
    getResolvedFieldProps (some requiredErrCtx) hintProps "aria-describedby" =
      some (.str "hint f1-error") := by
  have h := (c3_aria_describedby requiredErrCtx hintProps "f1" rfl (by decide)
    (by decide)).2 "hint" rfl
  exact h

/-- Claim C4: under a context with a truthy error and a nonempty id, the
resolved `aria-invalid` comes from the explicit `aria-invalid` in props when
present, else from `context.invalid`, else defaults to `true`; the literal
string `"false"` is coerced to boolean `false` on either path, and any other
resolved value is kept as-is. -/
theorem c4_aria_invalid (c : FieldContextValue) (props : JSObj)
    (i : String) (hid : c.id = some i) (hne : i ≠ "")
    (herr : truthy c.error = true) :
    (∀ v : JSValue, props "aria-invalid" = some v → v ≠ .null →
      getResolvedFieldProps (some c) props "aria-invalid" =
        some (if v = .str "false" then .bool false else v)) ∧
    (props "aria-invalid" = none →
      ∀ w : JSValue, c.invalid = some w → w ≠ .null →
      getResolvedFieldProps (some c) props "aria-invalid" =
        some (if w = .str "false" then .bool false else w)) ∧
    (props "aria-invalid" = none → c.invalid = none →
      getResolvedFieldProps (some c) props "aria-invalid" =
        some (.bool true)) := by
  have hbne : (i != "") = true := bne_iff_ne.mpr hne
  refine ⟨?_, ?_, ?_⟩
  · intro v hv hvn
    cases v with
    | null => exact absurd rfl hvn
    | str s =>
      by_cases hfs : s = "false" <;>
        simp [getResolvedFieldProps, spreadObj, ariaDerivation, herr, hid,
          idTruthy, hbne, hv, jsCoalesce, hfs]
    | bool b =>
      simp [getResolvedFieldProps, spreadObj, ariaDerivation, herr, hid,
        idTruthy, hbne, hv, jsCoalesce]
  · intro hp w hw hwn
    cases w with
    | null => exact absurd rfl hwn
    | str s =>
      by_cases hfs : s = "false" <;>
        simp [getResolvedFieldProps, spreadObj, ariaDerivation, herr, hid,
          idTruthy, hbne, hp, hw, jsCoalesce, hfs]
    | bool b =>
      simp [getResolvedFieldProps, spreadObj, ariaDerivation, herr, hid,
        idTruthy, hbne, hp, hw, jsCoalesce]
  · intro hp hc
    simp [getResolvedFieldProps, spreadObj, ariaDerivation, herr, hid,
      idTruthy, hbne, hp, hc, jsCoalesce]

/-- Witness for C4 at the spec's test input: `context.invalid = "false"` with
an error present resolves `aria-invalid` to the boolean `false`. -/
theorem c4_aria_invalid_witness :
    getResolvedFieldProps (some falseInvalidCtx) emptyObj "aria-invalid" =
      some (.bool false) := by
  have h := (c4_aria_invalid falseInvalidCtx emptyObj "f1" rfl (by decide)
    (by decide)).2.1 rfl (.str "false") rfl (by decide)
  simpa using h

/-- Claim C5: under a context whose error is falsy or whose id is unset,
every `aria-*` entry of the resolved props is exactly the caller's entry,
unchanged. -/
theorem c5_no_aria_changes (c : FieldContextValue) (props : JSObj)
    (k : String) (h : truthy c.error = false ∨ c.id = none)
    (hk : "aria-".data.isPrefixOf k.data = true) :
    getResolvedFieldProps (some c) props k = props k := by
  have hcond : (truthy c.error && idTruthy c.id) = false := by
    rcases h with h | h
    · simp [h]
    · simp [h, idTruthy]
  have h1 : k ≠ "name" := fun e => absurd (e ▸ hk) (by decide)
  have h2 : k ≠ "id" := fun e => absurd (e ▸ hk) (by decide)
  have h3 : k ≠ "invalid" := fun e => absurd (e ▸ hk) (by decide)
  have h4 : k ≠ "disabled" := fun e => absurd (e ▸ hk) (by decide)
  have h5 : k ≠ "required" := fun e => absurd (e ▸ hk) (by decide)
  cases hp : props k with
  | none =>
    simp [getResolvedFieldProps, spreadObj, ariaDerivation, hcond, emptyObj,
      contextRest, h1, h2, h3, h4, h5, hp]
  | some v =>
    simp [getResolvedFieldProps, spreadObj, ariaDerivation, hcond, emptyObj,
      hp]

/-- Witness for C5: an error-free context leaves a caller-supplied
`aria-label` untouched. -/
theorem c5_no_aria_changes_witness :
    getResolvedFieldProps (some noErrCtx) ariaLabelProps "aria-label" =
      ariaLabelProps "aria-label" :=
  c5_no_aria_changes noErrCtx ariaLabelProps "aria-label" (Or.inl rfl)
    (by decide)

/-- Claim C7: `Textarea`'s `resize` option defaults to `"y"` when the caller
supplied none, otherwise is the caller's value; each `resize` value selects
exactly its one class (`resize-xy` for `true`, `resize-x` for `"x"`,
`resize-y` for `"y"`, none for `false`); and the `resize` entry is never
among the props forwarded to the underlying element. -/
theorem c7_textarea_resize (context : Option FieldContextValue)
    (props : JSObj) :
    (props "resize" = none →
      textareaResolvedResize context props = .str "y") ∧
    (∀ v : JSValue, props "resize" = some v →
      textareaResolvedResize context props = v) ∧
    textareaForwardedProps context props "resize" = none ∧
    textareaResizeClasses (.bool true) = ["resize-xy"] ∧
    textareaResizeClasses (.str "x") = ["resize-x"] ∧
    textareaResizeClasses (.str "y") = ["resize-y"] ∧
    textareaResizeClasses (.bool false) = [] := by
  refine ⟨?_, ?_, ?_, rfl, rfl, rfl, rfl⟩
  · intro hnone
    simp [textareaResolvedResize, resolved_resize_eq, hnone]
  · intro v hv
    simp [textareaResolvedResize, resolved_resize_eq, hv]
  · simp [textareaForwardedProps]

/-- Witness for C7: with no `resize` the resolved value is `"y"`; with
`resize: true` it is `true`, yielding the `resize-xy` class, and the
forwarded props still have no `resize` entry. -/
theorem c7_textarea_resize_witness :
    textareaResolvedResize none emptyObj = .str "y" ∧
    textareaResolvedResize none resizeTrueProps = .bool true ∧
    textareaForwardedProps none resizeTrueProps "resize" = none ∧
    textareaResizeClasses (.bool true) = ["resize-xy"] :=
  ⟨(c7_textarea_resize none emptyObj).1 rfl,
   (c7_textarea_resize none resizeTrueProps).2.1 (.bool true) rfl,
   (c7_textarea_resize none resizeTrueProps).2.2.1,
   (c7_textarea_resize none resizeTrueProps).2.2.2.1⟩

/-- Claim C8: `FieldError` renders nothing when the explicit children and the
context error are both falsy; otherwise the displayed message is the explicit
children when truthy, else the context's error message. -/
theorem c8_fieldError_render (context : Option FieldContextValue)
    (props : JSObj) :
    (truthy (props "children") = false ∧
        truthy (context.bind fun c => c.error) = false →
      renderFieldError context props = none) ∧
    (∀ v : JSValue, props "children" = some v → v.truthy = true →
      (renderFieldError context props).map FieldErrorRender.message =
        some v) ∧
    (truthy (props "children") = false →
      ∀ e : JSValue, (context.bind fun c => c.error) = some e →
      e.truthy = true →
      (renderFieldError context props).map FieldErrorRender.message =
        some e) := by
  refine ⟨?_, ?_, ?_⟩
  · rintro ⟨h1, h2⟩
    cases hc : (context.bind fun c => c.error) with
    | none => simp [renderFieldError, jsOr, h1, hc]
    | some e =>
      have he : e.truthy = false := by rw [hc] at h2; simpa [truthy] using h2
      simp [renderFieldError, jsOr, h1, hc, he]
  · intro v hv htr
    simp [renderFieldError, jsOr, truthy, hv, htr]
  · intro h1 e hce het
    simp [renderFieldError, jsOr, h1, hce, het]

/-- Witness for C8 at the spec's test input: no children and a context
without an error message renders nothing. -/
theorem c8_fieldError_render_witness :
    renderFieldError (some idOnlyCtx) emptyObj = none :=
  (c8_fieldError_render (some idOnlyCtx) emptyObj).1 ⟨rfl, rfl⟩

/-- Claim C9 counterexample: a `FieldError` that does render, given an
explicit `role="none"`, carries role `"none"` rather than `"alert"` — the
`{...domProps}` spread comes after `role="alert"`, so an explicit `role`
prop overrides it, refuting the claim's quantification over all props. -/
theorem c9_role_overridden_counterexample :
    (renderFieldError (some alertCtx) roleNoneProps).map FieldErrorRender.role =
      some (.str "none") ∧
    (renderFieldError (some alertCtx) roleNoneProps).map FieldErrorRender.role ≠
      some (.str "alert") := by
  refine ⟨rfl, ?_⟩
  decide

/-- Claim C9 (amended): every `FieldError` render that produces output
carries role `"alert"`, provided the caller did not pass an explicit `role`
prop (an explicit `role` overrides the alert role). -/
theorem c9_role_alert (context : Option FieldContextValue) (props : JSObj)
    (hrole : props "role" = none) (r : FieldErrorRender)
    (hr : renderFieldError context props = some r) :
    r.role = .str "alert" := by
  simp only [renderFieldError, hrole] at hr
  split at hr
  · exact absurd hr (by simp)
  · split at hr
    · cases Option.some.inj hr
      rfl
    · exact absurd hr (by simp)

/-- Witness for C9's amended theorem: with no explicit `role`, the rendered
error carries role `"alert"`. -/
theorem c9_role_alert_witness :
    renderFieldError (some alertCtx) emptyObj =
      some { message := .str "Oops", role := .str "alert", id := none } ∧
    FieldErrorRender.role
        { message := .str "Oops", role := .str "alert", id := none } =
      .str "alert" :=
  ⟨rfl, c9_role_alert (some alertCtx) emptyObj rfl _ rfl⟩

/-- Claim C10: under a context with a nonempty id and a truthy error, the DOM
id `FieldError` renders is the token `{id}-error`, and that same token is
what `getResolvedFieldProps` places in the sibling field's
`aria-describedby` — alone when the caller supplied none, appended after a
space otherwise. -/
theorem c10_error_id_matches_describedby (c : FieldContextValue)
    (props propsF : JSObj) (i : String) (hid : c.id = some i)
    (hne : i ≠ "") (herr : truthy c.error = true) :
    (renderFieldError (some c) propsF).map FieldErrorRender.id =
      some (some (.str (i ++ "-error"))) ∧
    (props "aria-describedby" = none →
      getResolvedFieldProps (some c) props "aria-describedby" =
        some (.str (i ++ "-error"))) ∧
    (∀ s : String, props "aria-describedby" = some (.str s) →
      getResolvedFieldProps (some c) props "aria-describedby" =
        some (.str (s ++ " " ++ i ++ "-error"))) := by
  refine ⟨renderFieldError_id_of_error c propsF i hid hne herr, ?_, ?_⟩
  · intro hnone
    exact resolved_describedby_of_none c props i hid hne herr hnone
  · intro s hs
    exact resolved_describedby_of_str c props i s hid hne herr hs

/-- Witness for C10: with context id `"f1"` and error `"Required"`, the
rendered error element's id and the derived `aria-describedby` token are
both `"f1-error"`. -/
theorem c10_error_id_matches_describedby_witness :
    (renderFieldError (some requiredErrCtx) emptyObj).map FieldErrorRender.id =
      some (some (.str "f1-error")) ∧
    getResolvedFieldProps (some requiredErrCtx) emptyObj "aria-describedby" =
      some (.str "f1-error") := by
  have h := c10_error_id_matches_describedby requiredErrCtx emptyObj emptyObj
    "f1" rfl (by decide) (by decide)
  exact ⟨h.1, h.2.1 rfl⟩

end Form
